import Mathlib

/-!
Shallow embedding of `svgwrite/interface.py`: the attribute-formatting
interfaces `IViewBox`, `ITransform`, `IXLink` and `IPresentation`.

The host element's attribute dictionary is modelled as an insertion-ordered
association list with unique keys (`Attribs`); Python `dict` assignment,
lookup with default, `pop` and `setdefault` are modelled explicitly.
Exceptions that a method can raise are modelled by returning the state at the
point the exception propagates together with an `Option SvgError`.
-/

namespace Svgwrite

/-- The host element's attribute map: insertion-ordered string-keyed map,
modelling the Python `attribs` dict. -/
abbrev Attribs := List (String × String)

/-- Python `attribs.get(key)` / `attribs[key]` lookup returning `none` when
the key is absent. -/
def Attribs.get : Attribs → String → Option String
  | [], _ => none
  | (k', v) :: rest, k => if k' = k then some v else Attribs.get rest k

/-- Python `attribs[key] = value`: replace the value in place when the key is
present, otherwise append the pair at the end (dict insertion order). -/
def Attribs.set : Attribs → String → String → Attribs
  | [], k, v => [(k, v)]
  | (k', v') :: rest, k, v =>
      if k' = k then (k, v) :: rest else (k', v') :: Attribs.set rest k v

/-- Python `attribs.pop(key, None)`: remove the key if present; absent keys
are not an error. -/
def Attribs.pop : Attribs → String → Attribs
  | [], _ => []
  | (k', v) :: rest, k =>
      if k' = k then Attribs.pop rest k else (k', v) :: Attribs.pop rest k

/-- Python `attribs.setdefault(key, default)`: return the existing value when
the key is present, otherwise insert the default and return it.  The first
component is the (possibly extended) map, the second the returned value. -/
def Attribs.setdefault (a : Attribs) (k v : String) : Attribs × String :=
  match Attribs.get a k with
  | some w => (a, w)
  | none => (Attribs.set a k v, v)

/-- Errors a method can raise: `invalidArgument` models Python's
`ValueError`, `keyError` a dict lookup failure, `nameError` the use of an
undefined name. -/
inductive SvgError where
  | invalidArgument (msg : String)
  | keyError (key : String)
  | nameError (nm : String)
deriving DecidableEq, Repr

/-- An argument handed to `strlist`: a number, a nested coordinate pair, or
an omitted (`None`) entry. -/
inductive StrItem where
  | omitted
  | num (n : Int)
  | pair (x y : Int)
deriving DecidableEq, Repr

/-- Join a list of strings with a separator. -/
def joinSep (sep : String) : List String → String
  | [] => ""
  | [x] => x
  | x :: xs => x ++ sep ++ joinSep sep xs

/-- Modelled from the spec: `strlist` from the missing `utils` module.
Per the data-model section, numeric/coordinate lists "serialize as
whitespace/comma-joined tokens, with `None`/absent entries omitted", nested
coordinate pairs flattened; the separator used is the one the spec states
for each call site (whitespace for `viewBox`, comma inside transform tokens,
matching the testable property `rotate(45,(5,5))` giving `rotate(45,5,5)`). -/
def strlist (sep : String) (items : List StrItem) : String :=
  joinSep sep (items.foldr
    (fun i acc =>
      match i with
      | StrItem.omitted => acc
      | StrItem.num n => toString n :: acc
      | StrItem.pair x y => (toString x ++ sep ++ toString y) :: acc) [])

/-- The `_horiz` lookup table: horizontal alignment keyword to SVG token. -/
def hTable : String → Option String := fun k =>
  if k = "center" then some "xMid"
  else if k = "left" then some "xMin"
  else if k = "right" then some "xMax"
  else none

/-- The `_vert` lookup table: vertical alignment keyword to SVG token. -/
def vTable : String → Option String := fun k =>
  if k = "middle" then some "YMid"
  else if k = "top" then some "YMin"
  else if k = "bottom" then some "YMax"
  else none

/-- A host element as the interfaces see it: its attribute map and the
strict/debug validation flag. -/
structure Element where
  attribs : Attribs
  debug : Bool
deriving DecidableEq, Repr

/-- `IViewBox.viewbox(minx, miny, width, height)`: store the four numbers,
formatted by `strlist`, under `viewBox`.  The spec states viewBox values are
whitespace-joined. -/
def viewbox (a : Attribs) (minx miny width height : Int) : Attribs :=
  Attribs.set a "viewBox" (strlist " " [StrItem.num minx, StrItem.num miny,
    StrItem.num width, StrItem.num height])

/-- `IViewBox.fit(horiz, vert, scale)`: raise `ValueError` when the debug
flag is set and `scale` is neither `meet` nor `slice`; otherwise look the
alignment keywords up in the tables (an unknown key raises `KeyError`) and
store `"<h><v> <scale>"` under `preserveAspectRatio`.  The returned element
is the state at the point the call returns or the exception propagates. -/
def fit (self : Element) (horiz : String := "center") (vert : String := "middle")
    (scale : String := "meet") : Element × Option SvgError :=
  if self.debug && !(scale = "meet" || scale = "slice") then
    (self, some (SvgError.invalidArgument ("Invalid scale parameter '" ++ scale ++ "'")))
  else
    match hTable horiz with
    | none => (self, some (SvgError.keyError horiz))
    | some hv =>
      match vTable vert with
      | none => (self, some (SvgError.keyError vert))
      | some vv =>
        ({ self with attribs :=
            Attribs.set self.attribs "preserveAspectRatio" (hv ++ vv ++ " " ++ scale) },
         none)

/-- Python `str.strip()`: remove leading and trailing whitespace. -/
def pyStrip (s : String) : String :=
  String.mk ((((s.data.dropWhile Char.isWhitespace).reverse.dropWhile
    Char.isWhitespace).reverse))

/-- `ITransform._add_transformation`: append the new token to the previous
`transform` value (empty string when absent), space-separated, stripped of
leading/trailing whitespace. -/
def addTransformation (a : Attribs) (new_transform : String) : Attribs :=
  Attribs.set a "transform"
    (pyStrip ((Attribs.get a "transform").getD "" ++ " " ++ new_transform))

/-- `ITransform.translate(tx, ty=None)`. -/
def translate (a : Attribs) (tx : Int) (ty : Option Int := none) : Attribs :=
  addTransformation a ("translate(" ++
    strlist "," [StrItem.num tx,
      match ty with | some y => StrItem.num y | none => StrItem.omitted] ++ ")")

/-- `ITransform.rotate(angle, center=None)`. -/
def rotate (a : Attribs) (angle : Int) (center : Option (Int × Int) := none) : Attribs :=
  addTransformation a ("rotate(" ++
    strlist "," [StrItem.num angle,
      match center with | some c => StrItem.pair c.1 c.2 | none => StrItem.omitted] ++ ")")

/-- `ITransform.scale(sx, sy=None)`. -/
def scale (a : Attribs) (sx : Int) (sy : Option Int := none) : Attribs :=
  addTransformation a ("scale(" ++
    strlist "," [StrItem.num sx,
      match sy with | some y => StrItem.num y | none => StrItem.omitted] ++ ")")

/-- `ITransform.skewX(angle)`. -/
def skewX (a : Attribs) (angle : Int) : Attribs :=
  addTransformation a ("skewX(" ++ toString angle ++ ")")

/-- `ITransform.skewY(angle)`. -/
def skewY (a : Attribs) (angle : Int) : Attribs :=
  addTransformation a ("skewY(" ++ toString angle ++ ")")

/-- `ITransform.matrix(a, b, c, d, e, f)`. -/
def matrix (attrs : Attribs) (a b c d e f : Int) : Attribs :=
  addTransformation attrs ("matrix(" ++
    strlist "," [StrItem.num a, StrItem.num b, StrItem.num c,
      StrItem.num d, StrItem.num e, StrItem.num f] ++ ")")

/-- `ITransform.del_transform`: `attribs.pop('transform', None)`. -/
def del_transform (a : Attribs) : Attribs :=
  Attribs.pop a "transform"

/-- The argument of `IXLink.set_href`: either an id string or a referenced
element, represented by its attribute map. -/
inductive Href where
  | str (s : String)
  | elem (attribs : Attribs)
deriving DecidableEq, Repr

/-- Modelled from the spec: the identifier allocator `nextid()` lives on the
host element outside this file's source; the spec describes it as an external
capability producing a fresh identifier string on demand, represented here by
the explicit argument `nid`.  Otherwise this follows `IXLink.update_id`: a
string target is used directly, an element target's `id` is read via
`setdefault` (allocating `nid` when absent), and `"#" ++ idstr` is stored
under `xlink:href`.  Returns the caller's updated map and the possibly
mutated target. -/
def update_id (self : Attribs) (href : Href) (nid : String) : Attribs × Href :=
  match href with
  | Href.str s => (Attribs.set self "xlink:href" ("#" ++ s), Href.str s)
  | Href.elem t =>
      let p := Attribs.setdefault t "id" nid
      (Attribs.set self "xlink:href" ("#" ++ p.2), Href.elem p.1)

/-- `IXLink.set_href(element)`: store the reference and update `xlink:href`
via `update_id`. -/
def set_href (self : Attribs) (element : Href) (nid : String) : Attribs × Href :=
  update_id self element nid

/-- `if param: self[key] = param` for one optional parameter: `None` and the
empty string are falsy in Python and leave the map untouched. -/
def setIfTruthy (a : Attribs) (k : String) : Option String → Attribs
  | none => a
  | some s => if s = "" then a else Attribs.set a k s

/-- `IPresentation.fill(color, rule, opacity)`. -/
def fill (attrs : Attribs) (color : Option String := none)
    (rule : Option String := none) (opacity : Option String := none) : Attribs :=
  setIfTruthy (setIfTruthy (setIfTruthy attrs "fill" color) "fill-rule" rule)
    "fill-opacity" opacity

/-- `IPresentation.stroke(color, width, opacity, linecap, linejoin,
miterlimit)`: the first four parameters are stored, then the source tests
`if join:` — `join` is an undefined name, so every call raises `NameError`
at that point and the `linejoin`/`miterlimit` branches are unreachable.  The
result is the map state when the exception propagates, with the error. -/
def stroke (attrs : Attribs) (color : Option String := none)
    (width : Option String := none) (opacity : Option String := none)
    (linecap : Option String := none) (linejoin : Option String := none)
    (miterlimit : Option String := none) : Attribs × Option SvgError :=
  let a1 := setIfTruthy attrs "stroke" color
  let a2 := setIfTruthy a1 "stroke-width" width
  let a3 := setIfTruthy a2 "stroke-opacity" opacity
  let a4 := setIfTruthy a3 "stroke-linecap" linecap
  (a4, some (SvgError.nameError "join"))

/-- `IPresentation.dasharray(definition, offset)`: the source stores a
truthy `definition` under the key `stroke-array` (sic) and a truthy `offset`
under `stroke-dashoffset`. -/
def dasharray (attrs : Attribs) (definition : Option String := none)
    (offset : Option String := none) : Attribs :=
  setIfTruthy (setIfTruthy attrs "stroke-array" definition)
    "stroke-dashoffset" offset

/-- `IPresentation.viewport_fill(color, opacity)`. -/
def viewport_fill (attrs : Attribs) (color : Option String := none)
    (opacity : Option String := none) : Attribs :=
  setIfTruthy (setIfTruthy attrs "viewport-fill" color)
    "viewport-fill-opacity" opacity

theorem get_set_self (a : Attribs) (k v : String) :
    Attribs.get (Attribs.set a k v) k = some v := by
  induction a with
  | nil => simp [Attribs.set, Attribs.get]
  | cons hd tl ih =>
    by_cases h : hd.1 = k
    · simp [Attribs.set, Attribs.get, h]
    · simp [Attribs.set, Attribs.get, h, ih]

theorem get_set_ne (a : Attribs) (k k' v : String) (h : k' ≠ k) :
    Attribs.get (Attribs.set a k v) k' = Attribs.get a k' := by
  induction a with
  | nil => simp [Attribs.set, Attribs.get, h.symm]
  | cons hd tl ih =>
    obtain ⟨k1, v1⟩ := hd
    by_cases hk : k1 = k
    · subst hk
      simp [Attribs.set, Attribs.get, h.symm]
    · by_cases hk' : k1 = k'
      · simp [Attribs.set, Attribs.get, hk, hk', h]
      · simp [Attribs.set, Attribs.get, hk, hk', ih]

theorem get_pop_self (a : Attribs) (k : String) :
    Attribs.get (Attribs.pop a k) k = none := by
  induction a with
  | nil => simp [Attribs.pop, Attribs.get]
  | cons hd tl ih =>
    by_cases h : hd.1 = k
    · simp [Attribs.pop, h, ih]
    · simp [Attribs.pop, Attribs.get, h, ih]

theorem pop_pop (a : Attribs) (k : String) :
    Attribs.pop (Attribs.pop a k) k = Attribs.pop a k := by
  induction a with
  | nil => simp [Attribs.pop]
  | cons hd tl ih =>
    by_cases h : hd.1 = k
    · simp [Attribs.pop, h, ih]
    · simp [Attribs.pop, h, ih]

theorem pop_of_get_none (a : Attribs) (k : String) (h : Attribs.get a k = none) :
    Attribs.pop a k = a := by
  induction a with
  | nil => simp [Attribs.pop]
  | cons hd tl ih =>
    by_cases hk : hd.1 = k
    · simp [Attribs.get, hk] at h
    · simp [Attribs.get, hk] at h
      simp [Attribs.pop, hk, ih h]

theorem addTransformation_get (a : Attribs) (t : String) :
    Attribs.get (addTransformation a t) "transform"
      = some (pyStrip ((Attribs.get a "transform").getD "" ++ " " ++ t)) := by
  unfold addTransformation
  exact get_set_self a "transform" _

/-- Claim C1: each transform method (`translate`, `rotate`, `scale`, `skewX`,
`skewY`, `matrix`) appends its formatted token to the existing `transform`
attribute value, single-space separated and preserving call order, and an
absent optional second argument is omitted from the token rather than
defaulting to zero; in particular `translate(10)` then `scale(2)` on an
element with no prior transform yields `transform == "translate(10) scale(2)"`. -/
theorem C1_transform_compose (a : Attribs)
    (h : Attribs.get a "transform" = none) :
    Attribs.get (scale (translate a 10 none) 2 none) "transform"
      = some "translate(10) scale(2)"
    ∧ Attribs.get (translate [("transform", "rotate(30)")] 10 none) "transform"
      = some "rotate(30) translate(10)"
    ∧ scale [] 3 none = [("transform", "scale(3)")]
    ∧ translate [] 4 (some 9) = [("transform", "translate(4,9)")]
    ∧ rotate [] 45 (some (5, 5)) = [("transform", "rotate(45,5,5)")]
    ∧ rotate [] 45 none = [("transform", "rotate(45)")]
    ∧ skewX [] 7 = [("transform", "skewX(7)")]
    ∧ skewY [] 8 = [("transform", "skewY(8)")]
    ∧ matrix [] 1 2 3 4 5 6 = [("transform", "matrix(1,2,3,4,5,6)")] := by
  refine ⟨?_, by decide, by decide, by decide, by decide, by decide, by decide,
    by decide, by decide⟩
  rw [show translate a 10 none = addTransformation a "translate(10)" from rfl]
  rw [show ∀ b : Attribs, scale b 2 none = addTransformation b "scale(2)"
    from fun b => rfl]
  rw [addTransformation_get, addTransformation_get, h]
  decide

/-- Witness for C1 at the empty attribute map. -/
theorem C1_transform_compose_witness :
    Attribs.get ([] : Attribs) "transform" = none
    ∧ Attribs.get (scale (translate ([] : Attribs) 10 none) 2 none) "transform"
      = some "translate(10) scale(2)" :=
  ⟨by decide, (C1_transform_compose [] (by decide)).1⟩

/-- Claim C2: `fit` validates asymmetrically.  With the debug flag set and a
scale outside `meet`/`slice` it fails with an invalid-argument error naming
the offending value and writes nothing; with the flag clear an invalid scale
is passed through verbatim (`"xMidYMid bogus"`); an unrecognized horizontal
or vertical alignment key fails with a key error whatever the flag. -/
theorem C2_fit_asymmetry (a : Attribs) (d : Bool) :
    fit ⟨a, true⟩ "center" "middle" "bogus"
      = (⟨a, true⟩, some (SvgError.invalidArgument "Invalid scale parameter 'bogus'"))
    ∧ Attribs.get (fit ⟨a, false⟩ "center" "middle" "bogus").1.attribs
        "preserveAspectRatio" = some "xMidYMid bogus"
    ∧ (fit ⟨a, false⟩ "center" "middle" "bogus").2 = none
    ∧ fit ⟨a, d⟩ "junk" "middle" "meet" = (⟨a, d⟩, some (SvgError.keyError "junk"))
    ∧ fit ⟨a, d⟩ "center" "junk" "meet" = (⟨a, d⟩, some (SvgError.keyError "junk")) := by
  refine ⟨rfl, ?_, rfl, ?_, ?_⟩
  · exact get_set_self a "preserveAspectRatio" _
  · cases d <;> rfl
  · cases d <;> rfl

/-- Claim C3: the source's `stroke` tests `if join:` where `join` is an
undefined name, so every call raises `NameError` after storing the first
four parameters and before the `linejoin` branch; `stroke(linejoin=v)`
therefore does not set `stroke-linejoin` and does not complete. -/
theorem C3_stroke_nameerror :
    stroke [] none none none none (some "round") none
      = ([], some (SvgError.nameError "join"))
    ∧ Attribs.get (stroke [] none none none none (some "round") none).1
        "stroke-linejoin" = none
    ∧ stroke [] (some "red") (some "2") (some "0.5") (some "butt") (some "round")
        (some "4")
      = ([("stroke", "red"), ("stroke-width", "2"), ("stroke-opacity", "0.5"),
          ("stroke-linecap", "butt")], some (SvgError.nameError "join")) := by
  refine ⟨by decide, by decide, by decide⟩

/-- Claim C4: the source's `dasharray` stores a provided definition under the
misspelled key `stroke-array`, not `stroke-dasharray`; the offset is stored
correctly under `stroke-dashoffset`. -/
theorem C4_dasharray_misnamed :
    dasharray [] (some "5,5") (some "3")
      = [("stroke-array", "5,5"), ("stroke-dashoffset", "3")]
    ∧ Attribs.get (dasharray [] (some "5,5") (some "3")) "stroke-dasharray" = none
    ∧ Attribs.get (dasharray [] (some "5,5") (some "3")) "stroke-dashoffset"
      = some "3" := by
  refine ⟨by decide, by decide, by decide⟩

/-- Claim C5: `set_href` with a string stores `#<string>`; with an element
lacking an `id` it assigns the allocated identifier to the target's `id` and
stores `#<that id>`; with an element that has an `id` it uses it unchanged;
and the stored `xlink:href` value always has the form `#<identifier>`. -/
theorem C5_set_href (self s2 t u : Attribs) (nid nid2 i : String)
    (hno : Attribs.get t "id" = none) (hyes : Attribs.get u "id" = some i) :
    set_href self (Href.str "foo") nid
      = (Attribs.set self "xlink:href" "#foo", Href.str "foo")
    ∧ set_href self (Href.elem t) nid
      = (Attribs.set self "xlink:href" ("#" ++ nid),
         Href.elem (Attribs.set t "id" nid))
    ∧ set_href s2 (Href.elem u) nid2
      = (Attribs.set s2 "xlink:href" ("#" ++ i), Href.elem u)
    ∧ ∀ (s0 : Attribs) (hr : Href) (n0 : String),
        ∃ idstr, Attribs.get (set_href s0 hr n0).1 "xlink:href"
          = some ("#" ++ idstr) := by
  refine ⟨rfl, ?_, ?_, ?_⟩
  · simp [set_href, update_id, Attribs.setdefault, hno]
  · simp [set_href, update_id, Attribs.setdefault, hyes]
  · intro s0 hr n0
    cases hr with
    | str s => exact ⟨s, get_set_self s0 "xlink:href" _⟩
    | elem t0 =>
      cases hget : Attribs.get t0 "id" with
      | none =>
        refine ⟨n0, ?_⟩
        simp [set_href, update_id, Attribs.setdefault, hget]
        exact get_set_self s0 "xlink:href" _
      | some w =>
        refine ⟨w, ?_⟩
        simp [set_href, update_id, Attribs.setdefault, hget]
        exact get_set_self s0 "xlink:href" _

/-- Witness for C5 with a target lacking an id and a target owning one. -/
theorem C5_set_href_witness :
    Attribs.get ([] : Attribs) "id" = none
    ∧ Attribs.get [("id", "z")] "id" = some "z"
    ∧ set_href [] (Href.elem []) "id1"
      = ([("xlink:href", "#id1")], Href.elem [("id", "id1")]) :=
  ⟨by decide, by decide,
   (C5_set_href [] [] [] [("id", "z")] "id1" "n2" "z" (by decide) (by decide)).2.1⟩

/-- Claim C6: `viewbox` stores the four numbers whitespace-joined under
`viewBox`, with no range validation: negative widths and heights pass
through. -/
theorem C6_viewbox (a : Attribs) (minx miny width height : Int) :
    Attribs.get (viewbox a 0 0 100 50) "viewBox" = some "0 0 100 50"
    ∧ Attribs.get (viewbox a minx miny width height) "viewBox"
      = some (toString minx ++ " " ++ (toString miny ++ " " ++
          (toString width ++ " " ++ toString height)))
    ∧ Attribs.get (viewbox a (-7) (-2) (-100) (-50)) "viewBox"
      = some "-7 -2 -100 -50" := by
  refine ⟨?_, ?_, ?_⟩
  · exact get_set_self a "viewBox" _
  · exact get_set_self a "viewBox" _
  · exact get_set_self a "viewBox" _

/-- Claim C7: for every recognized alignment pair, `fit` stores the
concatenated alignment token, a space and the scale mode under
`preserveAspectRatio`; defaults are center/middle/meet, so `fit()` yields
`"xMidYMid meet"`, and `fit(horiz="left", vert="top", scale="slice")` yields
`"xMinYMin slice"`. -/
theorem C7_fit_valid (a : Attribs) (d : Bool) (horiz vert sc hv vv : String)
    (hh : hTable horiz = some hv) (hvt : vTable vert = some vv)
    (hs : sc = "meet" ∨ sc = "slice") :
    fit ⟨a, d⟩ horiz vert sc
      = (⟨Attribs.set a "preserveAspectRatio" (hv ++ vv ++ " " ++ sc), d⟩, none)
    ∧ Attribs.get (fit ⟨a, d⟩).1.attribs "preserveAspectRatio"
      = some "xMidYMid meet"
    ∧ Attribs.get (fit ⟨a, d⟩ "left" "top" "slice").1.attribs "preserveAspectRatio"
      = some "xMinYMin slice" := by
  refine ⟨?_, ?_, ?_⟩
  · rcases hs with hs | hs <;> subst hs <;> simp [fit, hh, hvt]
  · cases d
    · exact get_set_self a "preserveAspectRatio" _
    · exact get_set_self a "preserveAspectRatio" _
  · cases d
    · exact get_set_self a "preserveAspectRatio" _
    · exact get_set_self a "preserveAspectRatio" _

/-- Witness for C7 at a concrete alignment pair and scale. -/
theorem C7_fit_valid_witness :
    hTable "right" = some "xMax" ∧ vTable "bottom" = some "YMax"
    ∧ (("slice" : String) = "meet" ∨ ("slice" : String) = "slice")
    ∧ fit ⟨[], false⟩ "right" "bottom" "slice"
      = (⟨[("preserveAspectRatio", "xMaxYMax slice")], false⟩, none) :=
  ⟨by decide, by decide, Or.inr rfl,
   (C7_fit_valid [] false "right" "bottom" "slice" "xMax" "YMax" (by decide)
     (by decide) (Or.inr rfl)).1⟩

/-- Claim C8: presentation setters should touch only the attributes of
provided truthy parameters.  `fill` and `viewport_fill` do; but `dasharray`
writes the key `stroke-array`, which corresponds to no parameter under the
specified naming, and `stroke` raises `NameError` instead of completing. -/
theorem C8_presentation_frame :
    fill [] (some "red") none none = [("fill", "red")]
    ∧ Attribs.get (fill [] (some "red") none none) "fill-rule" = none
    ∧ Attribs.get (fill [] (some "red") none none) "fill-opacity" = none
    ∧ fill [] none (some "") none = []
    ∧ viewport_fill [] (some "blue") none = [("viewport-fill", "blue")]
    ∧ viewport_fill [] none none = []
    ∧ dasharray [("fill", "red")] (some "5") none
      = [("fill", "red"), ("stroke-array", "5")]
    ∧ (stroke [] none none none none none none).2
      = some (SvgError.nameError "join") := by
  refine ⟨by decide, by decide, by decide, by decide, by decide, by decide,
    by decide, by decide⟩

/-- Claim C9: `del_transform` removes the `transform` key, is idempotent,
and is a no-op on a map without the key. -/
theorem C9_del_transform (a b : Attribs) (h : Attribs.get b "transform" = none) :
    Attribs.get (del_transform a) "transform" = none
    ∧ del_transform (del_transform a) = del_transform a
    ∧ del_transform b = b :=
  ⟨get_pop_self a "transform", pop_pop a "transform",
   pop_of_get_none b "transform" h⟩

/-- Witness for C9 at a map without a transform key. -/
theorem C9_del_transform_witness :
    Attribs.get [("fill", "red")] "transform" = none
    ∧ del_transform [("fill", "red")] = [("fill", "red")] :=
  ⟨by decide, (C9_del_transform [("fill", "red")] [("fill", "red")] (by decide)).2.2⟩

/-- Claim C10: `fit` is atomic on error: with the debug flag set and a scale
outside `meet`/`slice` the error is raised before any write, leaving the
attribute map, including any prior `preserveAspectRatio`, unchanged. -/
theorem C10_fit_atomic (e : Element) (horiz vert sc : String)
    (hd : e.debug = true) (h1 : sc ≠ "meet") (h2 : sc ≠ "slice") :
    fit e horiz vert sc
      = (e, some (SvgError.invalidArgument ("Invalid scale parameter '" ++ sc ++ "'")))
    ∧ (fit e horiz vert sc).1.attribs = e.attribs := by
  have hmain : fit e horiz vert sc
      = (e, some (SvgError.invalidArgument
          ("Invalid scale parameter '" ++ sc ++ "'"))) := by
    simp [fit, hd, h1, h2]
  exact ⟨hmain, by rw [hmain]⟩

/-- Witness for C10 at an element holding a prior preserveAspectRatio. -/
theorem C10_fit_atomic_witness :
    (⟨[("preserveAspectRatio", "xMidYMid meet")], true⟩ : Element).debug = true
    ∧ ("bogus" : String) ≠ "meet" ∧ ("bogus" : String) ≠ "slice"
    ∧ fit ⟨[("preserveAspectRatio", "xMidYMid meet")], true⟩ "center" "middle" "bogus"
      = (⟨[("preserveAspectRatio", "xMidYMid meet")], true⟩,
         some (SvgError.invalidArgument "Invalid scale parameter 'bogus'")) :=
  ⟨rfl, by decide, by decide,
   (C10_fit_atomic ⟨[("preserveAspectRatio", "xMidYMid meet")], true⟩
     "center" "middle" "bogus" rfl (by decide) (by decide)).1⟩

end Svgwrite
